import Mathlib

/-!
# Verification of the Giskard docs build configuration callbacks

This development gives a shallow embedding of the two callbacks defined in
`source/conf.py` of the Giskard documentation repository:

* `linkcode_resolve` — the source-link resolver invoked by the external
  documentation engine once per documented code symbol; it maps
  `(domain, module, fullname)` to an optional GitHub URL.
* `toctree_from_doc` — the fragment renderer injected into the page context;
  it harvests navigation (toctree) declarations from a named source document,
  resolves each against the current page, merges the resolved trees and
  renders the merge to an HTML fragment string.

Python runtime features are embedded explicitly:

* a Python object is modelled by `PyObj`: its attribute dictionary (used by
  `getattr` / `hasattr`), and the outcome of `inspect.getsourcefile` /
  `inspect.getsourcelines` on it (each an `Except Unit _`, `.error` modelling
  a raised exception, which the Python code catches with bare `except:`);
* `sys.modules` is an association list from module names to `PyObj`s;
* `str.split` is `pySplit`, a structurally recursive function with the exact
  semantics of Python's `str.split(sep)` for a non-empty separator;
* functions that may propagate a Python exception return in `Except Unit`;
  every `try/except` of the source is an explicit `match` on such a value.
-/

namespace GiskardDocs

/-- Splitting of a character list on a non-empty separator, leftmost match
first, as Python's `str.split(sep)` does.  The `fuel` argument makes the
recursion structural; `pySplit` supplies enough fuel that it never runs out. -/
def pySplitAux (sep : List Char) : Nat → List Char → List (List Char)
  | _, [] => [[]]
  | 0, l => [l]
  | fuel + 1, c :: cs =>
    if !sep.isEmpty && sep.isPrefixOf (c :: cs) then
      [] :: pySplitAux sep fuel (List.drop sep.length (c :: cs))
    else
      match pySplitAux sep fuel cs with
      | [] => [[c]]
      | p :: ps => (c :: p) :: ps

/-- Embedding of Python's `s.split(sep)` on strings (for a non-empty `sep`):
the list of pieces of `s` between non-overlapping occurrences of `sep`.
As in Python, the result is never the empty list. -/
def pySplit (s sep : String) : List String :=
  (pySplitAux sep.data (s.data.length + 1) s.data).map (fun l => ⟨l⟩)

/-- Embedding of Python's `l[-1]` on a list known to be non-empty: the last
element, with a default for the (unreachable) empty case. -/
def lastD (d : String) : List String → String
  | [] => d
  | [x] => x
  | _ :: x :: xs => lastD d (x :: xs)

/-- A Python object as seen by `linkcode_resolve`: its attribute dictionary
(first binding wins, as a single lookup result models `getattr`), the result
of `inspect.getsourcefile` on it (`.error ()` = the call raised; `.ok none` =
it returned `None`), and the result of `inspect.getsourcelines` on it
(`.error ()` = the call raised; otherwise the `(source, lineno)` pair,
`source` being the list of source lines). -/
inductive PyObj where
  | mk : List (String × PyObj) → Except Unit (Option String) →
      Except Unit (List String × Nat) → PyObj

/-- Attribute dictionary of the object. -/
def PyObj.attrs : PyObj → List (String × PyObj)
  | .mk a _ _ => a

/-- Outcome of `inspect.getsourcefile` on the object. -/
def PyObj.sourcefileR : PyObj → Except Unit (Option String)
  | .mk _ f _ => f

/-- Outcome of `inspect.getsourcelines` on the object. -/
def PyObj.sourcelinesR : PyObj → Except Unit (List String × Nat)
  | .mk _ _ l => l

/-- Embedding of `getattr(o, n)`: looks `n` up in the attribute dictionary,
raising (`.error ()`) when the attribute is absent. -/
def PyObj.getattrR (o : PyObj) (n : String) : Except Unit PyObj :=
  match o.attrs.lookup n with
  | some x => .ok x
  | none => .error ()

/-- Embedding of the loop `for part in fullname.split("."): try: obj =
getattr(obj, part) except: return None`.  A `none` result means some segment
failed to resolve, upon which the whole resolver answers `None`. -/
def walkPath : PyObj → List String → Option PyObj
  | obj, [] => some obj
  | obj, p :: ps =>
    match obj.getattrR p with
    | .ok o => walkPath o ps
    | .error _ => none

/-- Embedding of `obj.test_fn if hasattr(obj, "test_fn") else obj`: the
object whose source file is introspected. -/
def chosenObj (obj : PyObj) : PyObj :=
  match obj.attrs.lookup "test_fn" with
  | some f => f
  | none => obj

/-- Fixed repository base URL prefix of every returned link. -/
def giskardHubBase : String :=
  "https://github.com/Giskard-AI/giskard-hub/blob/main/src/giskard_hub"

/-- Embedding of `"#L%d-L%d" % (lineno, lineno + len(source) - 1)`. -/
def linespecOf (lineno : Nat) (source : List String) : String :=
  "#L" ++ toString lineno ++ "-L" ++ toString (lineno + source.length - 1)

/-- Embedding of `fn.split("giskard_hub")[-1]`: the portion of the file path
after the last occurrence of the marker (the whole path when the marker does
not occur).  `str.split` never returns an empty list, so the default of
`lastD` is unreachable. -/
def relativizePath (fn : String) : String :=
  lastD "" (pySplit fn "giskard_hub")

/-- Shallow embedding of `linkcode_resolve` from `source/conf.py`.
`modules` stands for `sys.modules`; the result is `.ok none` for `return
None`, `.ok (some url)` for a returned URL string, and `.error ()` would
model an uncaught exception reaching the caller (no branch produces one). -/
def linkcode_resolve (modules : List (String × PyObj)) (domain : String)
    (modname fullname : String) : Except Unit (Option String) :=
  if domain ≠ "py" then .ok none
  else
    match modules.lookup modname with
    | none => .ok none
    | some submod =>
      match walkPath submod (pySplit fullname ".") with
      | none => .ok none
      | some obj =>
        -- `try: fn = inspect.getsourcefile(
        --        obj.test_fn if hasattr(obj, "test_fn") else obj)
        --  except: fn = None`
        let fnOpt : Option String :=
          match (chosenObj obj).sourcefileR with
          | .ok f => f
          | .error _ => none
        match fnOpt with
        | none => .ok none
        | some fn =>
          -- `if not fn: return None` (an empty string is falsy too)
          if fn = "" then .ok none
          else
            -- `try: source, lineno = inspect.getsourcelines(obj)
            --  except: lineno = None` followed by `if lineno: ... else ...`
            let linespec : String :=
              match obj.sourcelinesR with
              | .ok (source, lineno) =>
                if lineno ≠ 0 then linespecOf lineno source else ""
              | .error _ => ""
            .ok (some (giskardHubBase ++ relativizePath fn ++ linespec))

/-- A docutils document tree as traversed by `source_doctree.findall
(addnodes.toctree)`: toctree (navigation declaration) nodes carry an opaque
payload consumed only by the external resolver; every other node only
matters through its children. -/
inductive DocNode where
  | toctree : Nat → DocNode
  | elem : List DocNode → DocNode

mutual

/-- Embedding of `list(source_doctree.findall(addnodes.toctree))`: all
toctree payloads of the tree in document order. -/
def findToctrees : DocNode → List Nat
  | .toctree t => [t]
  | .elem cs => findToctreesList cs

/-- The `findall` traversal over a list of sibling nodes. -/
def findToctreesList : List DocNode → List Nat
  | [] => []
  | c :: cs => findToctrees c ++ findToctreesList cs

end

/-- A resolved navigation tree (a docutils element): `label` stands for the
node's tag name and attributes, `children` for its child entries. -/
structure Node where
  label : String
  children : List Node

/-- The keyword arguments `TocTree.resolve` is called with: `prune=False` is
hard-coded and the rest come from the template call's `kwargs` with the
defaults of `kwargs.get`. -/
structure ResolveOpts where
  prune : Bool
  maxdepth : Int
  titles_only : Bool
  collapse : Bool
  includehidden : Bool

/-- The `kwargs` of a template call to `toctree_from_doc`: each recognized
key either present or absent. -/
structure Kwargs where
  maxdepth : Option Int
  titles_only : Option Bool
  collapse : Option Bool
  includehidden : Option Bool

/-- The options actually passed to `TocTree(app.env).resolve`:
`prune=False`, `maxdepth=kwargs.get("maxdepth", -1)`,
`titles_only=kwargs.get("titles_only", False)`, and so on. -/
def optsOf (kw : Kwargs) : ResolveOpts :=
  ⟨false, kw.maxdepth.getD (-1), kw.titles_only.getD false,
    kw.collapse.getD false, kw.includehidden.getD false⟩

/-- The externally owned state the fragment renderer reads: the document
environment (`app.env.get_doctree`, `none` modelling the exception raised for
an unknown document name), the toctree adapter (`TocTree(app.env).resolve`
with `app.builder` fixed, `none` modelling a resolution that yields no tree),
and the partial renderer (`app.builder.render_partial(node)["fragment"]`). -/
structure SphinxEnv where
  getDoctree : String → Option DocNode
  resolve : String → Nat → ResolveOpts → Option Node
  render : Node → String

/-- Embedding of the loop `result = resolved[0]; for toctree in resolved[1:]:
result.extend(toctree.children)`: each subsequent tree's children are
appended to the base tree's children. -/
def mergeTrees (r : Node) (rs : List Node) : Node :=
  rs.foldl (fun acc t => ⟨acc.label, acc.children ++ t.children⟩) r

/-- Shallow embedding of the template function `toctree_from_doc` from
`source/conf.py`; `pagename` is the page currently being rendered (captured
from the `html-page-context` event).  `.error ()` models an exception
propagating to the caller — here only `app.env.get_doctree` failing on an
unknown document name. -/
def toctree_from_doc (env : SphinxEnv) (pagename docname : String)
    (kw : Kwargs) : Except Unit String :=
  match env.getDoctree docname with
  | none => .error ()
  | some doc =>
    let toctrees := findToctrees doc
    if toctrees.isEmpty then .ok ""
    else
      -- the list comprehension followed by `[r for r in resolved if r is
      -- not None]`; resolution is against `pagename`, not `docname`
      let resolved := toctrees.filterMap
        (fun t => env.resolve pagename t (optsOf kw))
      match resolved with
      | [] => .ok ""
      | r :: rs => .ok (env.render (mergeTrees r rs))

/-! ## Theorems about the source-link resolver -/

/-- C7: for every input, the source-link resolver terminates normally
returning either a URL string or absent (`None`): every branch of the
embedded control flow produces `.ok _`, so no exception ever escapes to the
caller. -/
theorem linkcode_resolve_never_raises (modules : List (String × PyObj))
    (domain modname fullname : String) :
    ∃ r : Option String,
      linkcode_resolve modules domain modname fullname = .ok r := by
  unfold linkcode_resolve
  split
  · exact ⟨none, rfl⟩
  · split
    · exact ⟨none, rfl⟩
    · split
      · exact ⟨none, rfl⟩
      · dsimp only
        split
        · exact ⟨none, rfl⟩
        · split
          · exact ⟨none, rfl⟩
          · exact ⟨_, rfl⟩

/-- C6: a symbol reference whose module name is absent from the loaded-module
registry resolves to absent, and so does a reference whose dotted attribute
path fails at some segment — never a URL built from a partial match. -/
theorem linkcode_resolve_lookup_miss (modules : List (String × PyObj))
    (domain modname fullname : String) :
    (modules.lookup modname = none →
      linkcode_resolve modules domain modname fullname = .ok none) ∧
    (∀ m : PyObj, modules.lookup modname = some m →
      walkPath m (pySplit fullname ".") = none →
      linkcode_resolve modules domain modname fullname = .ok none) := by
  constructor
  · intro hm
    unfold linkcode_resolve
    split
    · rfl
    · rw [hm]
  · intro m hm hw
    unfold linkcode_resolve
    split
    · rfl
    · rw [hm]
      dsimp only
      rw [hw]

/-- Witness for C6: the empty registry misses module `m`; with `m` loaded,
the dotted path `f.g` fails at segment `g` on an object with a lone attribute
`f` carrying no attributes of its own. -/
theorem linkcode_resolve_lookup_miss_witness :
    linkcode_resolve [] "py" "m" "f" = .ok none ∧
    linkcode_resolve
      [("m", PyObj.mk [("f", PyObj.mk [] (.error ()) (.error ()))]
        (.error ()) (.error ()))] "py" "m" "f.g" = .ok none :=
  ⟨(linkcode_resolve_lookup_miss [] "py" "m" "f").1 rfl,
    (linkcode_resolve_lookup_miss _ "py" "m" "f.g").2
      (PyObj.mk [("f", PyObj.mk [] (.error ()) (.error ()))]
        (.error ()) (.error ())) rfl rfl⟩

/-- Unfolding lemma shared by the URL-producing cases: once the module is
found, the dotted path resolves to `obj`, and the source file of the chosen
object (the inner test function when present, `obj` otherwise) is introspected
as the non-empty path `fn`, the resolver returns the base URL, the relativized
path, and the line specification computed from `obj`'s own line
introspection. -/
theorem linkcode_resolve_eq_of_resolved (modules : List (String × PyObj))
    (modname fullname : String) (m obj : PyObj) (fn : String)
    (hm : modules.lookup modname = some m)
    (hw : walkPath m (pySplit fullname ".") = some obj)
    (hf : (chosenObj obj).sourcefileR = .ok (some fn))
    (hfn : fn ≠ "") :
    linkcode_resolve modules "py" modname fullname =
      .ok (some (giskardHubBase ++ relativizePath fn ++
        (match obj.sourcelinesR with
         | .ok (source, lineno) =>
           if lineno ≠ 0 then linespecOf lineno source else ""
         | .error _ => ""))) := by
  unfold linkcode_resolve
  rw [if_neg (by simp), hm]
  dsimp only
  rw [hw]
  dsimp only
  rw [hf]
  dsimp only
  rw [if_neg hfn]

/-- C8: when the source file of the chosen object is introspected as a
non-empty path but line-number introspection on the resolved object raises,
the resolver still returns a URL — a whole-file link with no `#L` suffix —
rather than absent. -/
theorem linkcode_resolve_whole_file (modules : List (String × PyObj))
    (modname fullname : String) (m obj : PyObj) (fn : String)
    (hm : modules.lookup modname = some m)
    (hw : walkPath m (pySplit fullname ".") = some obj)
    (hf : (chosenObj obj).sourcefileR = .ok (some fn))
    (hfn : fn ≠ "")
    (hl : obj.sourcelinesR = .error ()) :
    linkcode_resolve modules "py" modname fullname =
      .ok (some (giskardHubBase ++ relativizePath fn)) := by
  rw [linkcode_resolve_eq_of_resolved modules modname fullname m obj fn
    hm hw hf hfn, hl]
  simp

/-- Witness for C8: an object whose source file introspects to a path inside
the checkout but whose `getsourcelines` raises yields the whole-file link. -/
theorem linkcode_resolve_whole_file_witness :
    linkcode_resolve
      [("m", PyObj.mk
        [("f", PyObj.mk [] (.ok (some "/r/giskard_hub/a.py")) (.error ()))]
        (.error ()) (.error ()))] "py" "m" "f" =
      .ok (some (giskardHubBase ++ relativizePath "/r/giskard_hub/a.py")) :=
  linkcode_resolve_whole_file _ "m" "f"
    (PyObj.mk
      [("f", PyObj.mk [] (.ok (some "/r/giskard_hub/a.py")) (.error ()))]
      (.error ()) (.error ()))
    (PyObj.mk [] (.ok (some "/r/giskard_hub/a.py")) (.error ()))
    "/r/giskard_hub/a.py" rfl rfl rfl (by decide) rfl

/-- Inner test function used against C1: defined at line 100 of `inner.py`
in the checkout, spanning 4 source lines. -/
def innerFnC1 : PyObj :=
  .mk [] (.ok (some "/co/giskard_hub/inner.py"))
    (.ok (["a", "b", "c", "d"], 100))

/-- Wrapper used against C1: exposes `test_fn`, but its own source lines
introspect to line 5 of `wrap.py`, spanning 3 lines. -/
def wrapperC1 : PyObj :=
  .mk [("test_fn", innerFnC1)] (.ok (some "/co/giskard_hub/wrap.py"))
    (.ok (["x", "y", "z"], 5))

/-- Loaded-module registry used against C1. -/
def modulesC1 : List (String × PyObj) :=
  [("m", .mk [("w", wrapperC1)] (.error ()) (.error ()))]

/-- Counterexample to C1: the resolver introspects `getsourcelines` on the
wrapper itself (only `getsourcefile` prefers the inner test function), so the
returned URL carries the wrapper's range `#L5-L7`, which differs from the
inner function's range `#L100-L103` demanded by the claim. -/
theorem linkcode_resolve_test_fn_lines_cex :
    linkcode_resolve modulesC1 "py" "m" "w" =
      .ok (some (giskardHubBase ++ "/inner.py" ++
        linespecOf 5 ["x", "y", "z"])) ∧
    linespecOf 5 ["x", "y", "z"] ≠ linespecOf 100 ["a", "b", "c", "d"] :=
  ⟨rfl, by decide⟩

/-- C1 (amended): for a resolved object exposing an inner `test_fn`, the
returned URL's file path is introspected from the inner test function, but
its `#L` line range is introspected from the resolved wrapper object
itself. -/
theorem linkcode_resolve_test_fn (modules : List (String × PyObj))
    (modname fullname : String) (m obj inner : PyObj) (fn : String)
    (src : List String) (n : Nat)
    (hm : modules.lookup modname = some m)
    (hw : walkPath m (pySplit fullname ".") = some obj)
    (ht : obj.attrs.lookup "test_fn" = some inner)
    (hf : inner.sourcefileR = .ok (some fn))
    (hfn : fn ≠ "")
    (hl : obj.sourcelinesR = .ok (src, n))
    (hn : n ≠ 0) :
    linkcode_resolve modules "py" modname fullname =
      .ok (some (giskardHubBase ++ relativizePath fn ++ linespecOf n src)) := by
  have hch : chosenObj obj = inner := by
    unfold chosenObj
    rw [ht]
  rw [linkcode_resolve_eq_of_resolved modules modname fullname m obj fn
    hm hw (by rw [hch, hf]) hfn, hl]
  dsimp only
  rw [if_pos hn]

/-- Witness for the amended C1: on the wrapper/inner pair of the
counterexample, the URL combines the inner function's file with the
wrapper's line range. -/
theorem linkcode_resolve_test_fn_witness :
    linkcode_resolve modulesC1 "py" "m" "w" =
      .ok (some (giskardHubBase ++
        relativizePath "/co/giskard_hub/inner.py" ++
        linespecOf 5 ["x", "y", "z"])) :=
  linkcode_resolve_test_fn modulesC1 "m" "w"
    (.mk [("w", wrapperC1)] (.error ()) (.error ())) wrapperC1 innerFnC1
    "/co/giskard_hub/inner.py" ["x", "y", "z"] 5
    rfl rfl rfl rfl (by decide) rfl (by decide)

/-- Submodule-like object used against C2: both introspections succeed, but
`getsourcelines` reports starting line 0, as it does for a Python module. -/
def moduleObjC2 : PyObj :=
  .mk [] (.ok (some "/r/giskard_hub/pkg.py"))
    (.ok (["import x", "VALUE = 1"], 0))

/-- Loaded-module registry used against C2. -/
def modulesC2 : List (String × PyObj) :=
  [("m", .mk [("sub", moduleObjC2)] (.error ()) (.error ()))]

/-- Counterexample to C2: an object whose source file and source lines are
both successfully introspected, with starting line 0 — the resolver omits
the `#L` suffix (`if lineno:` treats 0 as falsy), so the returned URL is not
the `#L<start>-L<start+count-1>` form the claim demands. -/
theorem linkcode_resolve_url_format_cex :
    linkcode_resolve modulesC2 "py" "m" "sub" =
      .ok (some (giskardHubBase ++ "/pkg.py")) ∧
    giskardHubBase ++ "/pkg.py" ≠
      giskardHubBase ++ "/pkg.py" ++ linespecOf 0 ["import x", "VALUE = 1"] :=
  ⟨rfl, by decide⟩

/-- C2 (amended): when source file and source lines are both successfully
introspected and the starting line is non-zero, the returned URL is exactly
the base, the relativized path, and `#L<start>-L<start+count-1>`; a starting
line of 0 is treated like absent line data and the suffix is omitted. -/
theorem linkcode_resolve_url_format (modules : List (String × PyObj))
    (modname fullname : String) (m obj : PyObj) (fn : String)
    (src : List String) (n : Nat)
    (hm : modules.lookup modname = some m)
    (hw : walkPath m (pySplit fullname ".") = some obj)
    (ht : obj.attrs.lookup "test_fn" = none)
    (hf : obj.sourcefileR = .ok (some fn))
    (hfn : fn ≠ "")
    (hl : obj.sourcelinesR = .ok (src, n))
    (hn : n ≠ 0) :
    linkcode_resolve modules "py" modname fullname =
      .ok (some (giskardHubBase ++ relativizePath fn ++
        ("#L" ++ toString n ++ "-L" ++ toString (n + src.length - 1)))) := by
  have hch : chosenObj obj = obj := by
    unfold chosenObj
    rw [ht]
  rw [linkcode_resolve_eq_of_resolved modules modname fullname m obj fn
    hm hw (by rw [hch, hf]) hfn, hl]
  dsimp only
  rw [if_pos hn]
  rfl

/-- Witness for the amended C2: an object at line 10 spanning 3 lines yields
`#L10-L12`. -/
theorem linkcode_resolve_url_format_witness :
    linkcode_resolve
      [("m", PyObj.mk
        [("f", PyObj.mk [] (.ok (some "/r/giskard_hub/a.py"))
          (.ok (["d1", "d2", "d3"], 10)))]
        (.error ()) (.error ()))] "py" "m" "f" =
      .ok (some (giskardHubBase ++ relativizePath "/r/giskard_hub/a.py" ++
        ("#L" ++ toString 10 ++ "-L" ++
          toString (10 + (["d1", "d2", "d3"] : List String).length - 1)))) :=
  linkcode_resolve_url_format _ "m" "f"
    (PyObj.mk
      [("f", PyObj.mk [] (.ok (some "/r/giskard_hub/a.py"))
        (.ok (["d1", "d2", "d3"], 10)))]
      (.error ()) (.error ()))
    (PyObj.mk [] (.ok (some "/r/giskard_hub/a.py"))
      (.ok (["d1", "d2", "d3"], 10)))
    "/r/giskard_hub/a.py" ["d1", "d2", "d3"] 10
    rfl rfl rfl rfl (by decide) rfl (by decide)

/-- C10: when the introspected file path does not contain the marker
`giskard_hub` (`str.split` leaves it whole), the resolver does not return
absent: the entire absolute local path is concatenated after the fixed
repository base URL. -/
theorem linkcode_resolve_no_marker (modules : List (String × PyObj))
    (modname fullname : String) (m obj : PyObj) (fn : String)
    (hm : modules.lookup modname = some m)
    (hw : walkPath m (pySplit fullname ".") = some obj)
    (hf : (chosenObj obj).sourcefileR = .ok (some fn))
    (hfn : fn ≠ "")
    (hsplit : pySplit fn "giskard_hub" = [fn])
    (hl : obj.sourcelinesR = .error ()) :
    linkcode_resolve modules "py" modname fullname =
      .ok (some (giskardHubBase ++ fn)) := by
  have hrel : relativizePath fn = fn := by
    unfold relativizePath
    rw [hsplit]
    rfl
  rw [linkcode_resolve_eq_of_resolved modules modname fullname m obj fn
    hm hw hf hfn, hl, hrel]
  simp

/-- Witness for C10: a file installed outside any `giskard_hub` checkout is
linked with its full absolute path appended to the repository base URL. -/
theorem linkcode_resolve_no_marker_witness :
    linkcode_resolve
      [("m", PyObj.mk
        [("f", PyObj.mk [] (.ok (some "/opt/py/site/other/mod.py"))
          (.error ()))]
        (.error ()) (.error ()))] "py" "m" "f" =
      .ok (some (giskardHubBase ++ "/opt/py/site/other/mod.py")) :=
  linkcode_resolve_no_marker _ "m" "f"
    (PyObj.mk
      [("f", PyObj.mk [] (.ok (some "/opt/py/site/other/mod.py"))
        (.error ()))]
      (.error ()) (.error ()))
    (PyObj.mk [] (.ok (some "/opt/py/site/other/mod.py")) (.error ()))
    "/opt/py/site/other/mod.py" rfl rfl rfl (by decide) (by decide) rfl

/-! ## Theorems about the fragment renderer -/

/-- The merge loop leaves the base tree's identity intact and appends every
child of every subsequent tree, in order. -/
theorem mergeTrees_children (r : Node) (rs : List Node) :
    mergeTrees r rs = ⟨r.label, r.children ++ (rs.map Node.children).flatten⟩ := by
  induction rs generalizing r with
  | nil =>
    cases r
    simp [mergeTrees]
  | cons t ts ih =>
    show mergeTrees ⟨r.label, r.children ++ t.children⟩ ts = _
    rw [ih]
    simp

/-- C3: the fragment renderer resolves every harvested declaration against
the current page identifier only — its output is unchanged under any
modification of the resolver's behaviour at other page identifiers (in
particular at the source document's identifier). -/
theorem toctree_from_doc_uses_current_page (env env' : SphinxEnv)
    (pagename docname : String) (kw : Kwargs)
    (hdoc : env.getDoctree = env'.getDoctree)
    (hrender : env.render = env'.render)
    (hres : ∀ t opts, env.resolve pagename t opts =
      env'.resolve pagename t opts) :
    toctree_from_doc env pagename docname kw =
      toctree_from_doc env' pagename docname kw := by
  unfold toctree_from_doc
  rw [hdoc, hrender]
  simp only [hres]

/-- Source document of the C3 witness: a single declaration. -/
def docC3 : DocNode := .elem [.toctree 0]

/-- First environment of the C3 witness. -/
def envC3A : SphinxEnv :=
  ⟨fun d => if d = "guide" then some docC3 else none,
   fun p _ _ => if p = "page" then some ⟨"toc", [⟨"a1", []⟩]⟩
     else some ⟨"toc", [⟨"x", []⟩]⟩,
   fun n => String.intercalate "," (n.children.map Node.label)⟩

/-- Second environment of the C3 witness: resolves differently from
`envC3A` at every page other than `page` — in particular at `guide`, the
source document the declaration is harvested from. -/
def envC3B : SphinxEnv :=
  ⟨fun d => if d = "guide" then some docC3 else none,
   fun p _ _ => if p = "page" then some ⟨"toc", [⟨"a1", []⟩]⟩ else none,
   fun n => String.intercalate "," (n.children.map Node.label)⟩

/-- Witness for C3: the two environments agree on resolution at `page` but
disagree at `guide`, and the rendered fragments coincide. -/
theorem toctree_from_doc_uses_current_page_witness :
    toctree_from_doc envC3A "page" "guide" ⟨none, none, none, none⟩ =
      toctree_from_doc envC3B "page" "guide" ⟨none, none, none, none⟩ :=
  toctree_from_doc_uses_current_page envC3A envC3B "page" "guide"
    ⟨none, none, none, none⟩ rfl rfl (fun _ _ => rfl)

/-- C4: when at least two declarations resolve to trees, the rendered output
is the partial rendering of a single merged tree: the first resolved tree as
base, with every child entry of every subsequent resolved tree appended in
declaration order — nothing dropped, order preserved. -/
theorem toctree_from_doc_merges (env : SphinxEnv) (pagename docname : String)
    (kw : Kwargs) (doc : DocNode) (r : Node) (rs : List Node)
    (hdoc : env.getDoctree docname = some doc)
    (hres : (findToctrees doc).filterMap
      (fun t => env.resolve pagename t (optsOf kw)) = r :: rs)
    (_htwo : rs ≠ []) :
    toctree_from_doc env pagename docname kw =
      .ok (env.render
        ⟨r.label, r.children ++ (rs.map Node.children).flatten⟩) := by
  unfold toctree_from_doc
  rw [hdoc]
  dsimp only
  cases h : findToctrees doc with
  | nil =>
    rw [h] at hres
    simp at hres
  | cons a as =>
    rw [h] at hres
    rw [hres]
    dsimp only [List.isEmpty]
    rw [mergeTrees_children]
    rfl

/-- Source document of the C4 witness: two declarations in separate
sections. -/
def docC4 : DocNode := .elem [.toctree 0, .elem [.toctree 1]]

/-- Environment of the C4 witness: declaration 0 resolves to a tree with two
entries, declaration 1 to a tree with one entry, both only at `page`. -/
def envC4 : SphinxEnv :=
  ⟨fun d => if d = "guide" then some docC4 else none,
   fun p t _ =>
     if p = "page" ∧ t = 0 then some ⟨"toc", [⟨"a1", []⟩, ⟨"a2", []⟩]⟩
     else if p = "page" ∧ t = 1 then some ⟨"toc", [⟨"b1", []⟩]⟩
     else none,
   fun n => String.intercalate "|" (n.children.map Node.label)⟩

/-- Witness for C4: both resolved trees' entries appear under the single
merged root, in declaration order (`a1`, `a2`, then `b1`). -/
theorem toctree_from_doc_merges_witness :
    toctree_from_doc envC4 "page" "guide" ⟨none, none, none, none⟩ =
      .ok (envC4.render ⟨"toc",
        ([⟨"a1", []⟩, ⟨"a2", []⟩] : List Node) ++
          (([⟨"toc", [⟨"b1", []⟩]⟩] : List Node).map Node.children).flatten⟩) :=
  toctree_from_doc_merges envC4 "page" "guide" ⟨none, none, none, none⟩
    docC4 ⟨"toc", [⟨"a1", []⟩, ⟨"a2", []⟩]⟩ [⟨"toc", [⟨"b1", []⟩]⟩]
    rfl rfl (by simp)

/-- C5: a source document with no navigation declaration, and likewise one
all of whose declarations resolve to no tree, renders to the empty string
rather than an error. -/
theorem toctree_from_doc_empty_cases (env : SphinxEnv)
    (pagename docname : String) (kw : Kwargs) (doc : DocNode)
    (hdoc : env.getDoctree docname = some doc) :
    (findToctrees doc = [] →
      toctree_from_doc env pagename docname kw = .ok "") ∧
    ((∀ t ∈ findToctrees doc, env.resolve pagename t (optsOf kw) = none) →
      toctree_from_doc env pagename docname kw = .ok "") := by
  constructor
  · intro h
    unfold toctree_from_doc
    rw [hdoc]
    dsimp only
    rw [h]
    rfl
  · intro h
    unfold toctree_from_doc
    rw [hdoc]
    dsimp only
    have hnil : (findToctrees doc).filterMap
        (fun t => env.resolve pagename t (optsOf kw)) = [] := by
      rw [List.filterMap_eq_nil_iff]
      exact h
    split
    · rfl
    · rw [hnil]

/-- Environment of the C5 witness: document `bare` has no declaration at
all; document `lone` has one, which resolves to no tree anywhere. -/
def envC5 : SphinxEnv :=
  ⟨fun d => if d = "bare" then some (.elem [.elem []])
     else if d = "lone" then some (.toctree 7) else none,
   fun _ _ _ => none,
   fun n => n.label⟩

/-- Witness for C5: both the declaration-free document and the document
whose only declaration resolves to nothing render to the empty string. -/
theorem toctree_from_doc_empty_cases_witness :
    toctree_from_doc envC5 "page" "bare" ⟨none, none, none, none⟩ = .ok "" ∧
    toctree_from_doc envC5 "page" "lone" ⟨none, none, none, none⟩ = .ok "" :=
  ⟨(toctree_from_doc_empty_cases envC5 "page" "bare"
      ⟨none, none, none, none⟩ (.elem [.elem []]) rfl).1 rfl,
   (toctree_from_doc_empty_cases envC5 "page" "lone"
      ⟨none, none, none, none⟩ (.toctree 7) rfl).2 (fun _ _ => rfl)⟩

/-- C9: the fragment renderer is idempotent — a second call with identical
page, document and options against an unchanged environment returns the
identical output string. -/
theorem toctree_from_doc_idempotent (env env' : SphinxEnv)
    (pagename docname : String) (kw : Kwargs) (henv : env' = env) :
    toctree_from_doc env' pagename docname kw =
      toctree_from_doc env pagename docname kw := by
  rw [henv]

/-- Witness for C9: two calls on a concrete unchanged environment agree. -/
theorem toctree_from_doc_idempotent_witness :
    toctree_from_doc
      ⟨fun d => if d = "guide" then some (.toctree 0) else none,
       fun p _ _ => if p = "page" then some ⟨"toc", [⟨"e1", []⟩]⟩ else none,
       fun n => String.intercalate ";" (n.children.map Node.label)⟩
      "page" "guide" ⟨none, none, none, none⟩ =
    toctree_from_doc
      ⟨fun d => if d = "guide" then some (.toctree 0) else none,
       fun p _ _ => if p = "page" then some ⟨"toc", [⟨"e1", []⟩]⟩ else none,
       fun n => String.intercalate ";" (n.children.map Node.label)⟩
      "page" "guide" ⟨none, none, none, none⟩ :=
  toctree_from_doc_idempotent
    ⟨fun d => if d = "guide" then some (.toctree 0) else none,
     fun p _ _ => if p = "page" then some ⟨"toc", [⟨"e1", []⟩]⟩ else none,
     fun n => String.intercalate ";" (n.children.map Node.label)⟩
    ⟨fun d => if d = "guide" then some (.toctree 0) else none,
     fun p _ _ => if p = "page" then some ⟨"toc", [⟨"e1", []⟩]⟩ else none,
     fun n => String.intercalate ";" (n.children.map Node.label)⟩
    "page" "guide" ⟨none, none, none, none⟩ rfl

end GiskardDocs
